import Mathlib

/-!
Shallow embedding of the toefl-prep client logic
(src/client/src/pages/QuizPage.jsx, src/client/src/pages/AuthPage.jsx,
which also contain the DashboardPage, AuthContext and apiClient modules).

JavaScript values arriving from the backend are modelled by the inductive
type `Json`; the JS `undefined` is modelled as `none` in `Option Json`,
while JS `null` is `Json.null`.  Numbers are modelled as integers (the
payloads in play carry integer counts and scores; no floating point is
involved in any claim).
-/

namespace ToeflPrep

/-- A JSON-like JavaScript value.  `undefined` is represented externally
as `none : Option Json`. -/
inductive Json where
  | null
  | bool (b : Bool)
  | num (n : Int)
  | str (s : String)
  | arr (xs : List Json)
  | obj (fields : List (String × Json))
deriving Repr, Inhabited

/-- JS truthiness of a defined value: `null`, `false`, `0` and `""` are
falsy; every object and array is truthy. -/
def truthy : Json → Bool
  | .null => false
  | .bool b => b
  | .num n => n != 0
  | .str s => s != ""
  | .arr _ => true
  | .obj _ => true

/-- JS truthiness of a possibly-`undefined` value. -/
def truthyOpt : Option Json → Bool
  | none => false
  | some j => truthy j

/-- JS falsiness check `!v` on a possibly-`undefined` value. -/
def jsFalsy (v : Option Json) : Bool := !truthyOpt v

/-- Property access `v.k`: named fields exist only on objects; on every
other value the access yields `undefined`. -/
def getField : Json → String → Option Json
  | .obj fields, k => (fields.find? (fun p => p.1 == k)).map Prod.snd
  | _, _ => none

/-- Optional chaining `v?.k`: `undefined` when the receiver is nullish,
otherwise a plain property access. -/
def optChain (v : Option Json) (k : String) : Option Json :=
  match v with
  | none => none
  | some j => getField j k

/-- Nullish coalescing `a ?? b`: `b` when `a` is `null` or `undefined`. -/
def nullish (a b : Option Json) : Option Json :=
  match a with
  | none => b
  | some .null => b
  | some j => some j

/-- Whether a possibly-`undefined` value is nullish (`null` or `undefined`). -/
def isNullish : Option Json → Bool
  | none => true
  | some .null => true
  | some _ => false

/-- `Array.isArray` on a possibly-`undefined` value. -/
def isArray : Option Json → Bool
  | some (.arr _) => true
  | _ => false

/-- The `.length` read used in `response?.questions?.length`: arrays and
strings have an intrinsic numeric length, objects expose their own
`length` field if any, every other value yields `undefined`. -/
def jsLengthVal : Option Json → Option Json
  | some (.arr xs) => some (.num (Int.ofNat xs.length))
  | some (.str s) => some (.num (Int.ofNat s.length))
  | some (.obj fields) => getField (.obj fields) "length"
  | _ => none

/-- The comparison `v > 0` as used on a length value: true only for a
positive number.  (`undefined > 0` is false in JS; a non-numeric custom
`length` field would be coerced by JS, but no payload in the claims
carries one, so it is treated as not greater than zero.) -/
def jsGtZero : Option Json → Bool
  | some (.num n) => n > 0
  | _ => false

mutual

/-- JS string conversion `String(v)` (also the template-literal and
property-key coercion). -/
def jsToString : Json → String
  | .null => "null"
  | .bool true => "true"
  | .bool false => "false"
  | .num n => toString n
  | .str s => s
  | .arr xs => String.intercalate "," (jsToStringList xs)
  | .obj _ => "[object Object]"

/-- Array elements joined by `Array.prototype.toString`; `null` elements
render as the empty string. -/
def jsToStringList : List Json → List String
  | [] => []
  | x :: xs =>
      (match x with
       | .null => ""
       | j => jsToString j) :: jsToStringList xs

end

/-- Object spread and computed-member assignment `{ ...m, [k]: v }` /
`acc[k] = v`: replace in place when the key exists, append otherwise. -/
def jsInsert (m : List (String × Json)) (k : String) (v : Json) :
    List (String × Json) :=
  if m.any (fun p => p.1 == k) then
    m.map (fun p => if p.1 == k then (k, v) else p)
  else
    m ++ [(k, v)]

/-- `Object.values` for the values normalizeLessons can reach in its
fallback branch: field values of an object, the characters of a string,
and nothing for other primitives (arrays are excluded earlier). -/
def jsObjectValues : Json → List Json
  | .obj fields => fields.map Prod.snd
  | .str s => s.data.map (fun c => Json.str (String.mk [c]))
  | _ => []

/-- `typeof v === 'object'`: true for objects, arrays and `null`. -/
def typeofIsObject : Json → Bool
  | .obj _ => true
  | .arr _ => true
  | .null => true
  | _ => false

/-- normalizeQuestions from QuizPage.jsx: falsy input gives `[]`; a
payload whose `questions` field is an array gives that array; an array
payload is returned as-is; anything else gives `[]`. -/
def normalizeQuestions (payload : Option Json) : List Json :=
  if jsFalsy payload then
    []
  else if let some (.arr qs) := optChain payload "questions" then
    qs
  else if let some (.arr xs) := payload then
    xs
  else
    []

/-- normalizeLessons from the DashboardPage module: falsy input gives
`[]`; an array is returned as-is; else the first array among the
`lessons`, `plan`, `sections` fields (`plan`/`sections` additionally
truthiness-checked first, as in the source) is used; else the object's
own values filtered by `typeof entry === 'object'`. -/
def normalizeLessons (lessonPlan : Option Json) : List Json :=
  if jsFalsy lessonPlan then
    []
  else if let some (.arr xs) := lessonPlan then
    xs
  else if let some (.arr ls) := optChain lessonPlan "lessons" then
    ls
  else if truthyOpt (optChain lessonPlan "plan") &&
          isArray (optChain lessonPlan "plan") then
    match optChain lessonPlan "plan" with
    | some (.arr ps) => ps
    | _ => []
  else if truthyOpt (optChain lessonPlan "sections") &&
          isArray (optChain lessonPlan "sections") then
    match optChain lessonPlan "sections" with
    | some (.arr ss) => ss
    | _ => []
  else
    match lessonPlan with
    | some j => (jsObjectValues j).filter typeofIsObject
    | none => []

/-- getQuestionId from QuizPage.jsx: a truthy `question_number` yields
the template string, otherwise the `id` field, else `questionId`, else
the positional fallback. -/
def getQuestionId (question : Option Json) (fallbackIndex : Nat) : Json :=
  if truthyOpt (optChain question "question_number") then
    match optChain question "question_number" with
    | some v => .str ("question-" ++ jsToString v)
    | none => .str "question-undefined"
  else
    match nullish (optChain question "id")
        (nullish (optChain question "questionId")
          (some (.str ("q-" ++ toString fallbackIndex)))) with
    | some v => v
    | none => .str ("q-" ++ toString fallbackIndex)

/-- The session object `{ ...response, sessionId, focus: config.focus }`
stored by `setSession`: the spread start response together with the
derived session id and the configured focus. -/
structure SessionVal where
  base : Option Json
  sessionId : Option Json
  focus : String
deriving Repr

/-- The QuizPage component state relevant to the session controller:
`session`, `questions`, `answers`, `submission` and the `status` pair. -/
structure QuizState where
  session : Option SessionVal
  questions : List Json
  answers : List (String × Json)
  submission : Option Json
  loading : Bool
  error : Option String
deriving Repr

/-- The initial QuizPage state (`useState` initializers): no session, no
questions, empty AnswerMap, no submission, not loading, no error. -/
def initialQuizState : QuizState :=
  ⟨none, [], [], none, false, none⟩

/-- `response?.session_id ?? response?.sessionId ?? response?.id`. -/
def deriveSessionId (response : Option Json) : Option Json :=
  nullish (optChain response "session_id")
    (nullish (optChain response "sessionId") (optChain response "id"))

/-- The guard `response?.questions?.length > 0` deciding whether the
start response already embeds the questions. -/
def hasEmbeddedQuestions (response : Option Json) : Bool :=
  jsGtZero (jsLengthVal (optChain response "questions"))

/-- The AnswerMap initializer
`nextQuestions.reduce((acc, question, index) => acc[getQuestionId(question, index)] = ''; acc, \x7b\x7d)`:
each derived question id (coerced to a property key) maps to `''`. -/
def initAnswers (qs : List Json) : List (String × Json) :=
  qs.enum.foldl
    (fun acc p => jsInsert acc (jsToString (getQuestionId (some p.2) p.1)) (.str ""))
    []

/-- startQuiz from QuizPage.jsx, as a function of the previous component
state, the configured focus, and the outcomes of the two network calls
(`apiClient.startQuiz` and `apiClient.fetchQuizQuestions`).  The second
outcome is consulted only when the start response does not embed
questions, exactly as in the source. -/
def startQuiz (st : QuizState) (focus : String)
    (startResult : Except String (Option Json))
    (fetchResult : Except String (Option Json)) : QuizState :=
  let st1 : QuizState :=
    { st with loading := true, error := none, submission := none }
  match startResult with
  | .error msg => { st1 with loading := false, error := some msg }
  | .ok response =>
    let sessionId := deriveSessionId response
    let st2 : QuizState := { st1 with session := some ⟨response, sessionId, focus⟩ }
    let questionsPayload : Except String (Option Json) :=
      if hasEmbeddedQuestions response then .ok response else fetchResult
    match questionsPayload with
    | .error msg => { st2 with loading := false, error := some msg }
    | .ok qp =>
      let nextQuestions := normalizeQuestions qp
      { st2 with
          questions := nextQuestions,
          answers := initAnswers nextQuestions,
          loading := false,
          error := none }

/-- handleAnswerChange from QuizPage.jsx (the spec's recordAnswer):
`setAnswers((prev) => (\x7b ...prev, [questionKey]: choiceValue \x7d))`. -/
def handleAnswerChange (answers : List (String × Json)) (questionKey : String)
    (choiceValue : Json) : List (String × Json) :=
  jsInsert answers questionKey choiceValue

/-- The strict comparison `value !== ''` used by answeredCount: false
exactly on the empty string. -/
def jsStrictNeEmptyStr : Json → Bool
  | .str s => s != ""
  | _ => true

/-- `Object.values(answers).filter((value) => value !== '').length`. -/
def answeredCount (answers : List (String × Json)) : Nat :=
  ((answers.map Prod.snd).filter jsStrictNeEmptyStr).length

/-- `questions.length > 0 && answeredCount === questions.length`. -/
def allAnswered (questions : List Json) (answers : List (String × Json)) : Bool :=
  decide (questions.length > 0) && (answeredCount answers == questions.length)

/-- The DashboardPage component state relevant to the aggregator. -/
structure DashState where
  dashboardData : Option Json
  lessonPlan : List Json
  loading : Bool
  error : Option String
deriving Repr

/-- `Promise.all` over the two dashboard fetches: succeeds with the pair
when both settle successfully, otherwise propagates a single rejection. -/
def promiseAll2 (a b : Except String (Option Json)) :
    Except String (Option Json × Option Json) :=
  match a, b with
  | .ok x, .ok y => .ok (x, y)
  | .error m, _ => .error m
  | _, .error m => .error m

/-- fetchAllData from the DashboardPage module, as a function of the
previous state, the token, and the outcomes of the two fetches. -/
def fetchAllData (st : DashState) (token : Option Json)
    (dashRes lessonRes : Except String (Option Json)) : DashState :=
  if jsFalsy token then st
  else
    let st1 : DashState := { st with loading := true, error := none }
    match promiseAll2 dashRes lessonRes with
    | .ok dl =>
        { st1 with
            dashboardData := dl.1,
            lessonPlan := normalizeLessons dl.2,
            loading := false }
    | .error msg => { st1 with error := some msg, loading := false }

/-- The in-memory identity held by the AuthProvider, obtained by
destructuring `\x7b user, token \x7d`; `none` models a field that came
out as `undefined`. -/
structure MemAuth where
  user : Option Json
  token : Option Json
deriving Repr

/-- The durable storage slot under the auth key: absent, unparsable, or
holding a parsed JSON value. -/
inductive Slot where
  | empty
  | corrupt
  | stored (v : Json)
deriving Repr

/-- The AuthProvider state: memory identity, the storage slot, and the
`isAuthenticating` busy flag. -/
structure AuthState where
  mem : MemAuth
  slot : Slot
  busy : Bool
deriving Repr

/-- `v ?? null`: the value itself when defined and non-null, else `null`. -/
def orNull (v : Option Json) : Json :=
  match v with
  | none => .null
  | some j => j

/-- getStoredAuth from the AuthContext module: a missing or unparsable
slot yields `\x7b user: null, token: null \x7d`; a parsed value is
destructured field-wise. -/
def getStoredAuth : Slot → MemAuth
  | .empty => ⟨some .null, some .null⟩
  | .corrupt => ⟨some .null, some .null⟩
  | .stored v => ⟨getField v "user", getField v "token"⟩

/-- `JSON.stringify(nextState)` restricted to the two identity fields;
fields holding `undefined` are omitted, as stringify does. -/
def stringifyAuth (next : MemAuth) : Json :=
  .obj ((match next.user with
         | some u => [("user", u)]
         | none => []) ++
        (match next.token with
         | some t => [("token", t)]
         | none => []))

/-- persistState from the AuthContext module: memory and storage are
updated together; a falsy token removes the stored item, a truthy token
stores the serialized identity. -/
def persistState (st : AuthState) (next : MemAuth) : AuthState :=
  if jsFalsy next.token then
    { st with mem := next, slot := .empty }
  else
    { st with mem := next, slot := .stored (stringifyAuth next) }

/-- authenticate from the AuthContext module, as a function of the state
and the outcome of the signup/login request.  On success the identity is
extracted with `response?.user ?? null` / `response?.token ?? null` and
persisted; on failure the exception propagates and only the busy flag is
reset by the `finally` block. -/
def authenticate (st : AuthState) (result : Except String (Option Json)) :
    AuthState :=
  let st1 : AuthState := { st with busy := true }
  match result with
  | .error _ => { st1 with busy := false }
  | .ok response =>
    let next : MemAuth :=
      ⟨some (orNull (optChain response "user")),
       some (orNull (optChain response "token"))⟩
    let st2 := persistState st1 next
    { st2 with busy := false }

/-- logout from the AuthContext module: the best-effort network call is
swallowed and does not affect state; the identity is always cleared. -/
def logoutOp (st : AuthState) : AuthState :=
  persistState st ⟨some .null, some .null⟩

/-- One user-level session-store operation: a signup/login attempt with
its network outcome, or a logout. -/
inductive AuthOp where
  | auth (result : Except String (Option Json))
  | logout
deriving Repr

/-- Apply one session-store operation. -/
def stepAuth (st : AuthState) : AuthOp → AuthState
  | .auth r => authenticate st r
  | .logout => logoutOp st

/-- The AuthProvider state after `init` from a storage slot followed by a
sequence of signup/login/logout operations. -/
def runAuth (slot : Slot) (ops : List AuthOp) : AuthState :=
  ops.foldl stepAuth ⟨getStoredAuth slot, slot, false⟩

/-- The spec's Identity invariant on the in-memory identity: the token is
nullish exactly when the session is unauthenticated (`Boolean(token)` is
false), and a nullish token forces a nullish user. -/
def identityInvariant (m : MemAuth) : Prop :=
  (isNullish m.token = !truthyOpt m.token) ∧
  (isNullish m.token = true → isNullish m.user = true)

/-- The Identity invariant on durable storage: either nothing is stored
(logged out), or the stored identity carries a truthy token. -/
def slotInvariant : Slot → Prop
  | .empty => True
  | .corrupt => True
  | .stored v => truthy (orNull (getField v "token")) = true

/-- An HTTP response as the fetch wrapper observes it: the status code,
the body text, and the outcome of `JSON.parse` on that text (`none`
models a parse failure). -/
structure HttpResponse where
  status : Nat
  text : String
  parsed : Option Json
deriving Repr

/-- `response.ok`: status in the 200..299 success range. -/
def responseOk (status : Nat) : Bool :=
  decide (200 ≤ status) && decide (status ≤ 299)

/-- The `data` local of request: an empty body is never parsed, and a
parse failure is downgraded to `undefined`. -/
def requestData (resp : HttpResponse) : Option Json :=
  if resp.text = "" then none else resp.parsed

/-- request from the apiClient module: on a non-success status it throws
`data?.message || 'Request failed with status N'`, otherwise it returns
the parsed body (possibly `undefined`). -/
def request (resp : HttpResponse) : Except String (Option Json) :=
  let data := requestData resp
  if responseOk resp.status then
    .ok data
  else
    .error
      (if truthyOpt (optChain data "message") then
        jsToString (orNull (optChain data "message"))
      else
        "Request failed with status " ++ toString resp.status)

/-- The property keys of the answer ids derived from a question list, in
question order: index `i` contributes
`String(getQuestionId(questions[i], i))`. -/
def derivedKeys (qs : List Json) : List String :=
  qs.enum.map (fun p => jsToString (getQuestionId (some p.2) p.1))

section Lemmas

theorem map_keep_of_no_key (k : String) (v : Json) :
    ∀ (l : List (String × Json)), (∀ p ∈ l, (p.1 == k) = false) →
      l.map (fun p => if p.1 == k then (k, v) else p) = l := by
  intro l hl
  induction l with
  | nil => rfl
  | cons p l ih =>
      simp only [List.map_cons, hl p (List.mem_cons_self p l), if_neg, Bool.false_eq_true,
        not_false_iff, List.cons.injEq, true_and]
      exact ih (fun q hq => hl q (List.mem_cons_of_mem p hq))

theorem jsInsert_mem_keys (m : List (String × Json)) (k : String) (v : Json)
    (x : String) :
    x ∈ (jsInsert m k v).map Prod.fst ↔ x ∈ m.map Prod.fst ∨ x = k := by
  unfold jsInsert
  by_cases h : m.any (fun p => p.1 == k) = true
  · simp only [h, if_true, List.map_map, List.mem_map, Function.comp]
    constructor
    · rintro ⟨p, hp, hx⟩
      by_cases hpk : (p.1 == k) = true
      · right
        simp only [hpk, if_true] at hx
        exact hx ▸ rfl
      · left
        simp only [hpk, if_neg, Bool.false_eq_true, not_false_iff] at hx
        exact ⟨p, hp, hx⟩
    · rintro (⟨p, hp, hx⟩ | rfl)
      · by_cases hpk : (p.1 == k) = true
        · refine ⟨p, hp, ?_⟩
          simp only [hpk, if_true]
          exact (eq_of_beq hpk) ▸ hx
        · exact ⟨p, hp, by simp only [hpk, if_neg, Bool.false_eq_true, not_false_iff]; exact hx⟩
      · rw [List.any_eq_true] at h
        obtain ⟨p, hp, hpk⟩ := h
        exact ⟨p, hp, by simp only [hpk, if_true]⟩
  · simp only [h, if_neg, Bool.false_eq_true, not_false_iff, List.map_append,
      List.mem_append, List.map_cons, List.map_nil, List.mem_singleton]

theorem jsInsert_values (m : List (String × Json)) (k : String) (v : Json)
    (hm : ∀ p ∈ m, p.2 = v) : ∀ p ∈ jsInsert m k v, p.2 = v := by
  intro p hp
  unfold jsInsert at hp
  by_cases h : m.any (fun q => q.1 == k) = true
  · simp only [h, if_true, List.mem_map] at hp
    obtain ⟨q, hq, hpq⟩ := hp
    by_cases hqk : (q.1 == k) = true
    · simp only [hqk, if_true] at hpq
      exact hpq ▸ rfl
    · simp only [hqk, if_neg, Bool.false_eq_true, not_false_iff] at hpq
      exact hpq ▸ hm q hq
  · simp only [h, if_neg, Bool.false_eq_true, not_false_iff, List.mem_append,
      List.mem_singleton] at hp
    rcases hp with hp | rfl
    · exact hm p hp
    · rfl

theorem jsInsert_idem (m : List (String × Json)) (k : String) (v : Json) :
    jsInsert (jsInsert m k v) k v = jsInsert m k v := by
  by_cases h : m.any (fun p => p.1 == k) = true
  · have hstep : jsInsert m k v = m.map (fun p => if p.1 == k then (k, v) else p) := by
      unfold jsInsert; simp only [h, if_true]
    have hany : (m.map (fun p => if p.1 == k then (k, v) else p)).any
        (fun p => p.1 == k) = true := by
      rw [List.any_eq_true] at h ⊢
      obtain ⟨p, hp, hpk⟩ := h
      refine ⟨(k, v), List.mem_map.mpr ⟨p, hp, by simp only [hpk, if_true]⟩, ?_⟩
      exact beq_self_eq_true k
    rw [hstep]
    unfold jsInsert
    simp only [hany, if_true, List.map_map]
    refine List.map_congr_left ?_
    intro p _
    by_cases hpk : (p.1 == k) = true
    · simp [Function.comp, eq_of_beq hpk]
    · have hne : p.1 ≠ k := by simpa using hpk
      simp [Function.comp, hne]
  · have hstep : jsInsert m k v = m ++ [(k, v)] := by
      unfold jsInsert; simp only [h, if_neg, Bool.false_eq_true, not_false_iff]
    have hany : (m ++ [(k, v)]).any (fun p => p.1 == k) = true := by
      rw [List.any_eq_true]
      exact ⟨(k, v), List.mem_append_right _ (List.mem_singleton_self _),
        beq_self_eq_true k⟩
    rw [hstep]
    unfold jsInsert
    simp only [hany, if_true, List.map_append]
    rw [map_keep_of_no_key k v m, List.map_singleton]
    · simp [beq_self_eq_true]
    · intro p hp
      by_contra hpk
      rw [Bool.not_eq_false] at hpk
      exact h (List.any_eq_true.mpr ⟨p, hp, hpk⟩)

theorem foldl_jsInsert_mem_keys (g : Nat × Json → String) (v : Json) :
    ∀ (l : List (Nat × Json)) (acc : List (String × Json)) (x : String),
      x ∈ (l.foldl (fun a p => jsInsert a (g p) v) acc).map Prod.fst ↔
        x ∈ acc.map Prod.fst ∨ x ∈ l.map g := by
  intro l
  induction l with
  | nil => simp
  | cons p l ih =>
      intro acc x
      simp only [List.foldl_cons, List.map_cons, List.mem_cons, ih,
        jsInsert_mem_keys]
      tauto

theorem foldl_jsInsert_values (g : Nat × Json → String) (v : Json) :
    ∀ (l : List (Nat × Json)) (acc : List (String × Json)),
      (∀ p ∈ acc, p.2 = v) →
      ∀ p ∈ l.foldl (fun a q => jsInsert a (g q) v) acc, p.2 = v := by
  intro l
  induction l with
  | nil => intro acc hacc; exact hacc
  | cons q l ih =>
      intro acc hacc
      exact ih _ (jsInsert_values _ _ _ hacc)

theorem initAnswers_mem_keys (qs : List Json) (x : String) :
    x ∈ (initAnswers qs).map Prod.fst ↔ x ∈ derivedKeys qs := by
  unfold initAnswers derivedKeys
  rw [foldl_jsInsert_mem_keys (fun p => jsToString (getQuestionId (some p.2) p.1))
    (.str "") qs.enum [] x]
  simp

theorem initAnswers_values (qs : List Json) :
    ∀ p ∈ initAnswers qs, p.2 = Json.str "" := by
  unfold initAnswers
  exact foldl_jsInsert_values _ _ qs.enum [] (by intro p hp; cases hp)

theorem startQuiz_success_shape (st : QuizState) (focus : String)
    (sr fr : Except String (Option Json))
    (hsucc : (startQuiz st focus sr fr).error = none) :
    (startQuiz st focus sr fr).answers =
      initAnswers ((startQuiz st focus sr fr).questions) := by
  unfold startQuiz at hsucc ⊢
  match sr with
  | .error msg => simp at hsucc
  | .ok response =>
      by_cases hq : hasEmbeddedQuestions response = true
      · simp only [hq, if_true]
      · simp only [hq, if_neg, Bool.false_eq_true, not_false_iff] at hsucc ⊢
        match fr with
        | .error msg => simp at hsucc
        | .ok qp => rfl

end Lemmas

/-- C7: for every array payload `p`, both `normalizeQuestions p` and
`normalizeLessons p` return `p` itself unchanged (identity law). -/
theorem normalize_array_identity (xs : List Json) :
    normalizeQuestions (some (.arr xs)) = xs ∧
    normalizeLessons (some (.arr xs)) = xs :=
  ⟨rfl, rfl⟩

/-- C8: `answeredCount` counts exactly the AnswerMap values that differ
from the empty string, `allAnswered` holds exactly when that count equals
the question count and the question list is nonempty, and `allAnswered`
is false on an empty question list even for an empty AnswerMap. -/
theorem answered_count_all_answered (questions : List Json)
    (answers : List (String × Json)) :
    (∀ v, jsStrictNeEmptyStr v = true ↔ v ≠ Json.str "") ∧
    answeredCount answers = (answers.map Prod.snd).countP jsStrictNeEmptyStr ∧
    (allAnswered questions answers = true ↔
      answeredCount answers = questions.length ∧ 0 < questions.length) ∧
    allAnswered [] answers = false := by
  refine ⟨?_, ?_, ?_, rfl⟩
  · intro v
    cases v with
    | str s => simp [jsStrictNeEmptyStr]
    | null => simp [jsStrictNeEmptyStr]
    | bool b => simp [jsStrictNeEmptyStr]
    | num n => simp [jsStrictNeEmptyStr]
    | arr xs => simp [jsStrictNeEmptyStr]
    | obj fs => simp [jsStrictNeEmptyStr]
  · rw [answeredCount, List.countP_eq_length_filter]
  · rw [allAnswered]
    simp only [Bool.and_eq_true, decide_eq_true_eq, beq_iff_eq, gt_iff_lt]
    tauto

/-- C9: recordAnswer (handleAnswerChange) is idempotent: recording the
same choice for the same question id twice leaves the AnswerMap exactly
as recording it once. -/
theorem recordAnswer_idempotent (answers : List (String × Json))
    (questionKey : String) (choiceValue : Json) :
    handleAnswerChange (handleAnswerChange answers questionKey choiceValue)
        questionKey choiceValue =
      handleAnswerChange answers questionKey choiceValue :=
  jsInsert_idem answers questionKey choiceValue

/-- C1 (counterexample): a run of startQuiz whose start call succeeds
(returning a session id but no embedded questions) and whose follow-up
questions fetch throws surfaces the error, yet the session is no longer
what it was before the call — a partial session is retained, refuting
the claim that session, questions and AnswerMap all stay unchanged. -/
theorem startQuiz_fetch_failure_keeps_session_cex :
    (startQuiz initialQuizState "Vocabulary"
        (.ok (some (.obj [("session_id", .str "s1")])))
        (.error "network down")).error = some "network down" ∧
    (startQuiz initialQuizState "Vocabulary"
        (.ok (some (.obj [("session_id", .str "s1")])))
        (.error "network down")).session ≠ initialQuizState.session := by
  refine ⟨rfl, ?_⟩
  intro h
  have hses : (startQuiz initialQuizState "Vocabulary"
      (.ok (some (.obj [("session_id", .str "s1")])))
      (.error "network down")).session =
      some ⟨some (.obj [("session_id", .str "s1")]), some (.str "s1"),
        "Vocabulary"⟩ := rfl
  rw [hses] at h
  exact Option.noConfusion h

/-- C1 (amended): every failing run of startQuiz surfaces the error
message and leaves the questions list and the AnswerMap unchanged; when
the start call itself throws the session is also unchanged, but when the
follow-up questions fetch throws, the newly derived session has already
been stored, so the session is the fresh partial one rather than the
prior value. -/
theorem startQuiz_failure_state (st : QuizState) (focus msg : String)
    (response : Option Json) (fetchResult : Except String (Option Json))
    (hnoq : hasEmbeddedQuestions response = false) :
    ((startQuiz st focus (.error msg) fetchResult).error = some msg ∧
     (startQuiz st focus (.error msg) fetchResult).session = st.session ∧
     (startQuiz st focus (.error msg) fetchResult).questions = st.questions ∧
     (startQuiz st focus (.error msg) fetchResult).answers = st.answers) ∧
    ((startQuiz st focus (.ok response) (.error msg)).error = some msg ∧
     (startQuiz st focus (.ok response) (.error msg)).session =
       some ⟨response, deriveSessionId response, focus⟩ ∧
     (startQuiz st focus (.ok response) (.error msg)).questions = st.questions ∧
     (startQuiz st focus (.ok response) (.error msg)).answers = st.answers) := by
  refine ⟨⟨rfl, rfl, rfl, rfl⟩, ?_, ?_, ?_, ?_⟩ <;>
    simp [startQuiz, hnoq]

/-- C1 (witness): the amended statement at a concrete failing run. -/
theorem startQuiz_failure_state_witness :
    hasEmbeddedQuestions (some (.obj [("session_id", .str "s1")])) = false ∧
    (startQuiz initialQuizState "Vocabulary"
        (.ok (some (.obj [("session_id", .str "s1")])))
        (.error "ignored")).questions = initialQuizState.questions :=
  ⟨rfl, (startQuiz_failure_state initialQuizState "Vocabulary" "ignored"
      (some (.obj [("session_id", .str "s1")])) (.error "ignored") rfl).2.2.2.1⟩

/-- C2 (counterexample): on the payload holding one field `plan` whose
value is a one-record list, the two normalizers disagree —
normalizeQuestions returns the empty list (it consults neither the
`plan` alias nor any record-values fallback) while normalizeLessons
returns the plan list, refuting the claim that both apply the same
ordered policy. -/
theorem normalize_alias_policy_cex :
    normalizeQuestions
        (some (.obj [("plan", .arr [.obj [("title", .str "t")]])])) = [] ∧
    normalizeLessons
        (some (.obj [("plan", .arr [.obj [("title", .str "t")]])]))
      = [.obj [("title", .str "t")]] ∧
    ([] : List Json) ≠ [.obj [("title", .str "t")]] :=
  ⟨rfl, rfl, fun h => List.noConfusion h⟩

/-- C2 (amended): for non-array object payloads the two normalizers
follow different policies.  normalizeQuestions consults only the
`questions` alias — it returns that field's list when it is an array and
the empty list otherwise, with no record-values fallback.
normalizeLessons tries the `lessons`, `plan`, `sections` aliases in that
order — an array-valued `lessons` field wins regardless of `plan` and
`sections`, and an array-valued `plan` field wins regardless of
`sections` — and when none of the three is array-valued it returns the
object's own field values whose `typeof` is 'object' (records, arrays,
and null), in original key order. -/
theorem normalize_alias_policy_amended (fields : List (String × Json)) :
    (∀ qs, getField (.obj fields) "questions" = some (.arr qs) →
        normalizeQuestions (some (.obj fields)) = qs) ∧
    (isArray (getField (.obj fields) "questions") = false →
        normalizeQuestions (some (.obj fields)) = []) ∧
    (∀ ls, getField (.obj fields) "lessons" = some (.arr ls) →
        normalizeLessons (some (.obj fields)) = ls) ∧
    (∀ ps, isArray (getField (.obj fields) "lessons") = false →
        getField (.obj fields) "plan" = some (.arr ps) →
        normalizeLessons (some (.obj fields)) = ps) ∧
    (∀ ss, isArray (getField (.obj fields) "lessons") = false →
        isArray (getField (.obj fields) "plan") = false →
        getField (.obj fields) "sections" = some (.arr ss) →
        normalizeLessons (some (.obj fields)) = ss) ∧
    (isArray (getField (.obj fields) "lessons") = false →
     isArray (getField (.obj fields) "plan") = false →
     isArray (getField (.obj fields) "sections") = false →
        normalizeLessons (some (.obj fields)) =
          (fields.map Prod.snd).filter typeofIsObject) := by
  refine ⟨?_, ?_, ?_, ?_, ?_, ?_⟩
  · intro qs hq
    unfold normalizeQuestions
    simp only [jsFalsy, truthyOpt, truthy, Bool.not_true, Bool.false_eq_true,
      if_false, optChain, hq]
  · intro hq
    unfold normalizeQuestions
    simp only [jsFalsy, truthyOpt, truthy, Bool.not_true, Bool.false_eq_true,
      if_false, optChain]
    split
    · rename_i qs heq
      rw [heq] at hq
      simp [isArray] at hq
    · rfl
  · intro ls hl
    unfold normalizeLessons
    simp only [jsFalsy, truthyOpt, truthy, Bool.not_true, Bool.false_eq_true,
      if_false, optChain, hl]
  · intro ps hl hp
    unfold normalizeLessons
    simp only [jsFalsy, truthyOpt, truthy, Bool.not_true, Bool.false_eq_true,
      if_false, optChain]
    split
    · rename_i ls heq
      rw [heq] at hl
      simp [isArray] at hl
    · rw [hp]
      simp [isArray]
  · intro ss hl hp hs
    unfold normalizeLessons
    simp only [jsFalsy, truthyOpt, truthy, Bool.not_true, Bool.false_eq_true,
      if_false, optChain]
    split
    · rename_i ls heq
      rw [heq] at hl
      simp [isArray] at hl
    · rw [hs]
      rcases hpv : getField (.obj fields) "plan" with _ | pv
      · simp [isArray]
      · cases pv with
        | arr xs =>
            rw [hpv] at hp
            simp [isArray] at hp
        | null => simp [isArray]
        | bool b => simp [isArray]
        | num n => simp [isArray]
        | str s => simp [isArray]
        | obj fs => simp [isArray]
  · intro hl hp hs
    unfold normalizeLessons
    simp only [jsFalsy, truthyOpt, truthy, Bool.not_true, Bool.false_eq_true,
      if_false, optChain]
    split
    · rename_i ls heq
      rw [heq] at hl
      simp [isArray] at hl
    · simp [hp, hs, jsObjectValues]

/-- C2 (witness): the amended statement at concrete payloads — one whose
only alias field is `plan` (normalizeQuestions ignores it), and one
carrying both `lessons` and `sections` arrays, where the earlier
`lessons` alias wins. -/
theorem normalize_alias_policy_amended_witness :
    (isArray (getField (.obj [("plan", .arr [.num 1]), ("meta", .num 2),
        ("extra", .obj [])]) "questions") = false ∧
      normalizeQuestions (some (.obj [("plan", .arr [.num 1]), ("meta", .num 2),
        ("extra", .obj [])])) = []) ∧
    (getField (.obj [("sections", .arr [.str "s"]), ("lessons", .arr [.str "l"])])
        "lessons" = some (.arr [.str "l"]) ∧
      normalizeLessons (some (.obj [("sections", .arr [.str "s"]),
        ("lessons", .arr [.str "l"])])) = [.str "l"]) :=
  ⟨⟨rfl, (normalize_alias_policy_amended
      [("plan", .arr [.num 1]), ("meta", .num 2), ("extra", .obj [])]).2.1 rfl⟩,
   ⟨rfl, (normalize_alias_policy_amended
      [("sections", .arr [.str "s"]), ("lessons", .arr [.str "l"])]).2.2.1
      [.str "l"] rfl⟩⟩

/-- C5: after every successful startQuiz run, the AnswerMap key set is
exactly the set of ids derived via getQuestionId from the resulting
question list, and every key maps to the empty string, with no
extraneous keys. -/
theorem startQuiz_success_answer_keys (st : QuizState) (focus : String)
    (sr fr : Except String (Option Json))
    (hsucc : (startQuiz st focus sr fr).error = none) :
    (∀ k, k ∈ (startQuiz st focus sr fr).answers.map Prod.fst ↔
        k ∈ derivedKeys (startQuiz st focus sr fr).questions) ∧
    (∀ p ∈ (startQuiz st focus sr fr).answers, p.2 = Json.str "") := by
  rw [startQuiz_success_shape st focus sr fr hsucc]
  exact ⟨fun k => initAnswers_mem_keys _ k, initAnswers_values _⟩

/-- C5 (witness): the statement at a concrete successful run whose start
response embeds two questions. -/
theorem startQuiz_success_answer_keys_witness :
    (startQuiz initialQuizState "Vocabulary"
        (.ok (some (.obj [("session_id", .str "s1"),
          ("questions", .arr [.obj [("question_number", .num 1)],
            .obj [("question_number", .num 2)]])])))
        (.error "unused")).error = none ∧
    ("question-1" ∈ (startQuiz initialQuizState "Vocabulary"
        (.ok (some (.obj [("session_id", .str "s1"),
          ("questions", .arr [.obj [("question_number", .num 1)],
            .obj [("question_number", .num 2)]])])))
        (.error "unused")).answers.map Prod.fst ↔
      "question-1" ∈ derivedKeys (startQuiz initialQuizState "Vocabulary"
        (.ok (some (.obj [("session_id", .str "s1"),
          ("questions", .arr [.obj [("question_number", .num 1)],
            .obj [("question_number", .num 2)]])])))
        (.error "unused")).questions) :=
  ⟨rfl, (startQuiz_success_answer_keys initialQuizState "Vocabulary"
      (.ok (some (.obj [("session_id", .str "s1"),
        ("questions", .arr [.obj [("question_number", .num 1)],
          .obj [("question_number", .num 2)]])])))
      (.error "unused") rfl).1 "question-1"⟩

/-- A signup/login/logout operation that keeps the Identity invariant
provable: a successful response must carry either a truthy token, or a
null token together with a null user (so that the memory invariant is
not broken by a user-without-token response). -/
def authOpOK : AuthOp → Prop
  | .auth (.ok response) =>
      truthy (orNull (optChain response "token")) = true ∨
      (orNull (optChain response "token") = .null ∧
       orNull (optChain response "user") = .null)
  | .auth (.error _) => True
  | .logout => True

/-- The joint invariant on an AuthProvider state: the memory Identity
invariant together with the durable-storage invariant. -/
def authStateOK (st : AuthState) : Prop :=
  identityInvariant st.mem ∧ slotInvariant st.slot

section AuthLemmas

theorem isNullish_some_of_truthy (t : Json) (h : truthy t = true) :
    isNullish (some t) = false := by
  cases t <;> simp_all [truthy, isNullish]

theorem persistState_mem (st : AuthState) (next : MemAuth) :
    (persistState st next).mem = next := by
  unfold persistState
  split <;> rfl

theorem persistState_slot_truthy (st : AuthState) (next : MemAuth)
    (h : truthyOpt next.token = true) :
    (persistState st next).slot = .stored (stringifyAuth next) := by
  unfold persistState
  rw [if_neg (by simp [jsFalsy, h])]

theorem persistState_slot_falsy (st : AuthState) (next : MemAuth)
    (h : truthyOpt next.token = false) :
    (persistState st next).slot = .empty := by
  unfold persistState
  rw [if_pos (by simp [jsFalsy, h])]

theorem stringifyAuth_token (u t : Json) :
    getField (stringifyAuth ⟨some u, some t⟩) "token" = some t := rfl

theorem identityInvariant_clear : identityInvariant ⟨some .null, some .null⟩ :=
  ⟨rfl, fun _ => rfl⟩

theorem authenticate_mem (st : AuthState) (response : Option Json) :
    (authenticate st (.ok response)).mem =
      ⟨some (orNull (optChain response "user")),
       some (orNull (optChain response "token"))⟩ := by
  unfold authenticate
  rw [persistState_mem]

theorem authenticate_slot (st : AuthState) (response : Option Json) :
    (authenticate st (.ok response)).slot =
      (persistState { st with busy := true }
        ⟨some (orNull (optChain response "user")),
         some (orNull (optChain response "token"))⟩).slot := rfl

theorem stepAuth_preserves (st : AuthState) (op : AuthOp)
    (hst : authStateOK st) (hop : authOpOK op) :
    authStateOK (stepAuth st op) := by
  cases op with
  | logout => exact ⟨identityInvariant_clear, trivial⟩
  | auth r =>
      cases r with
      | error m => exact hst
      | ok response =>
          rcases hop with htr | ⟨htn, hun⟩
          · constructor
            · show identityInvariant (authenticate st (.ok response)).mem
              rw [authenticate_mem]
              refine ⟨?_, ?_⟩
              · show isNullish (some (orNull (optChain response "token"))) =
                  !truthyOpt (some (orNull (optChain response "token")))
                rw [isNullish_some_of_truthy _ htr]
                show false = !truthy (orNull (optChain response "token"))
                rw [htr]
                rfl
              · intro hnt
                rw [isNullish_some_of_truthy _ htr] at hnt
                exact Bool.noConfusion hnt
            · show slotInvariant (authenticate st (.ok response)).slot
              rw [authenticate_slot, persistState_slot_truthy _ _
                (show truthyOpt (some (orNull (optChain response "token")))
                  = true from htr)]
              show truthy (orNull (getField
                (stringifyAuth ⟨some (orNull (optChain response "user")),
                  some (orNull (optChain response "token"))⟩) "token")) = true
              rw [stringifyAuth_token]
              exact htr
          · constructor
            · show identityInvariant (authenticate st (.ok response)).mem
              rw [authenticate_mem, htn, hun]
              exact identityInvariant_clear
            · show slotInvariant (authenticate st (.ok response)).slot
              rw [authenticate_slot]
              have hslot : (persistState { st with busy := true }
                  ⟨some (orNull (optChain response "user")),
                   some (orNull (optChain response "token"))⟩).slot = .empty := by
                apply persistState_slot_falsy
                show truthy (orNull (optChain response "token")) = false
                rw [htn]
                rfl
              rw [hslot]
              exact trivial

theorem authStateOK_init (slot : Slot) (hslot : slotInvariant slot) :
    authStateOK ⟨getStoredAuth slot, slot, false⟩ := by
  cases slot with
  | empty => exact ⟨identityInvariant_clear, trivial⟩
  | corrupt => exact ⟨identityInvariant_clear, trivial⟩
  | stored v =>
      refine ⟨?_, hslot⟩
      show identityInvariant ⟨getField v "user", getField v "token"⟩
      rcases hv : getField v "token" with _ | t
      · exfalso
        have h' : truthy (orNull (getField v "token")) = true := hslot
        rw [hv] at h'
        exact Bool.noConfusion h'
      · have h' : truthy (orNull (getField v "token")) = true := hslot
        rw [hv] at h'
        have htr : truthy t = true := h'
        refine ⟨?_, ?_⟩
        · rw [isNullish_some_of_truthy _ htr]
          show false = !truthy t
          rw [htr]
          rfl
        · intro hnt
          rw [isNullish_some_of_truthy _ htr] at hnt
          exact Bool.noConfusion hnt

theorem foldl_stepAuth_preserves (ops : List AuthOp) :
    ∀ (st : AuthState), authStateOK st → (∀ op ∈ ops, authOpOK op) →
      authStateOK (ops.foldl stepAuth st) := by
  induction ops with
  | nil => intro st h _; exact h
  | cons op ops ih =>
      intro st h hops
      exact ih _ (stepAuth_preserves st op h (hops op (List.mem_cons_self op ops)))
        (fun o ho => hops o (List.mem_cons_of_mem op ho))

end AuthLemmas

/-- C3 (counterexample): starting from an empty storage slot, a login
whose response carries a user but no token leaves memory with a null
token and a non-null user, refuting the claim that the Identity
invariant holds after every init/signup/login/logout sequence. -/
theorem auth_invariant_cex :
    ¬ identityInvariant (runAuth Slot.empty
        [AuthOp.auth (.ok (some (.obj
          [("user", .obj [("name", .str "Ada")])])))]).mem := by
  intro h
  have hv : (false : Bool) = true := h.2 rfl
  exact Bool.noConfusion hv

/-- C3 (amended): the Identity invariant does hold in durable storage
for every state reachable by init, signup, login and logout (storage is
empty or holds an identity with a truthy token), and it holds in memory
as well provided the initial slot satisfies the storage invariant and
every successful login/signup response carries either a truthy token or
a null token together with a null user; a response with a user and no
token, however, is exactly the case that breaks the memory invariant. -/
theorem auth_invariant_amended (slot : Slot) (ops : List AuthOp)
    (hslot : slotInvariant slot) (hops : ∀ op ∈ ops, authOpOK op) :
    identityInvariant (runAuth slot ops).mem ∧
    slotInvariant (runAuth slot ops).slot :=
  foldl_stepAuth_preserves ops _ (authStateOK_init slot hslot) hops

/-- C3 (witness): the amended statement for a login that returns a
truthy token, starting from an empty slot. -/
theorem auth_invariant_amended_witness :
    slotInvariant Slot.empty ∧
    identityInvariant (runAuth Slot.empty
      [AuthOp.auth (.ok (some (.obj [("token", .str "tok")])))]).mem := by
  refine ⟨trivial, ?_⟩
  refine (auth_invariant_amended Slot.empty _ trivial ?_).1
  intro op hop
  rw [List.mem_singleton] at hop
  subst hop
  exact Or.inl rfl

/-- C4: whenever the token is truthy and either of the two dashboard
fetches rejects, the refresh reports a single failure message, resets
the one loading flag, and leaves both dashboardData and lessonPlan at
their previous values — no partial update. -/
theorem fetchAllData_failure_atomic (st : DashState) (token : Option Json)
    (dashRes lessonRes : Except String (Option Json))
    (htok : jsFalsy token = false)
    (hfail : (∃ m, dashRes = .error m) ∨ (∃ m, lessonRes = .error m)) :
    (fetchAllData st token dashRes lessonRes).dashboardData = st.dashboardData ∧
    (fetchAllData st token dashRes lessonRes).lessonPlan = st.lessonPlan ∧
    (fetchAllData st token dashRes lessonRes).loading = false ∧
    ∃ m, (fetchAllData st token dashRes lessonRes).error = some m := by
  unfold fetchAllData
  rw [if_neg (by simp [htok])]
  rcases hfail with ⟨m, rfl⟩ | ⟨m, rfl⟩
  · cases lessonRes with
    | error m2 => exact ⟨rfl, rfl, rfl, m, rfl⟩
    | ok l => exact ⟨rfl, rfl, rfl, m, rfl⟩
  · cases dashRes with
    | error m2 => exact ⟨rfl, rfl, rfl, m2, rfl⟩
    | ok d => exact ⟨rfl, rfl, rfl, m, rfl⟩

/-- C4 (witness): a refresh whose lesson-plan fetch fails retains the
prior lessonPlan value. -/
theorem fetchAllData_failure_atomic_witness :
    jsFalsy (some (.str "tok")) = false ∧
    (fetchAllData ⟨some (.num 1), [.num 2], false, none⟩ (some (.str "tok"))
        (.ok (some (.num 9))) (.error "lesson fail")).lessonPlan = [.num 2] :=
  ⟨rfl, (fetchAllData_failure_atomic ⟨some (.num 1), [.num 2], false, none⟩
      (some (.str "tok")) (.ok (some (.num 9))) (.error "lesson fail") rfl
      (Or.inr ⟨"lesson fail", rfl⟩)).2.1⟩

/-- C6 (counterexample): on a 500 response whose parsed body has a
`message` field holding the empty string, the field is present, yet
request throws the generic text, because the source tests the field with
truthiness rather than presence — refuting "message taken from the
parsed body's message field when present". -/
theorem request_empty_message_cex :
    getField (.obj [("message", .str "")]) "message" = some (.str "") ∧
    request ⟨500, "\x7b\"message\":\"\"\x7d",
        some (.obj [("message", .str "")])⟩
      = .error "Request failed with status 500" ∧
    "Request failed with status 500" ≠ "" :=
  ⟨rfl, rfl, by decide⟩

/-- C6 (amended): request throws exactly when the status is outside the
200..299 success range; the thrown message is the parsed body's
`message` field when that field is present and truthy (in particular any
non-empty string), and otherwise — including a present but falsy
message such as the empty string — the generic
"Request failed with status N" text; on a success status an empty or
unparsable body is non-fatal and the call returns with no structured
body rather than throwing. -/
theorem request_error_behavior (resp : HttpResponse) :
    ((∃ m, request resp = .error m) ↔ responseOk resp.status = false) ∧
    (∀ v, responseOk resp.status = false →
        optChain (requestData resp) "message" = some v → truthy v = true →
        request resp = .error (jsToString v)) ∧
    (responseOk resp.status = false →
        truthyOpt (optChain (requestData resp) "message") = false →
        request resp = .error ("Request failed with status " ++
          toString resp.status)) ∧
    (responseOk resp.status = true → request resp = .ok (requestData resp)) ∧
    (responseOk resp.status = true → resp.text = "" ∨ resp.parsed = none →
        request resp = .ok none) := by
  refine ⟨⟨?_, ?_⟩, ?_, ?_, ?_, ?_⟩
  · rintro ⟨m, hm⟩
    by_contra hok
    rw [Bool.not_eq_false] at hok
    unfold request at hm
    rw [if_pos hok] at hm
    exact Except.noConfusion hm
  · intro hnotok
    unfold request
    rw [if_neg (by simp [hnotok])]
    exact ⟨_, rfl⟩
  · intro v hnotok hv htr
    unfold request
    rw [if_neg (by simp [hnotok])]
    rw [hv]
    simp [truthyOpt, htr, orNull]
  · intro hnotok hfalsy
    unfold request
    rw [if_neg (by simp [hnotok])]
    rw [if_neg (by simp [hfalsy])]
  · intro hok
    unfold request
    rw [if_pos hok]
  · intro hok hbody
    unfold request
    rw [if_pos hok]
    rcases hbody with h | h <;> simp [requestData, h]

/-- C6 (witness): the amended statement at a 404 with a non-empty
message field. -/
theorem request_error_behavior_witness :
    responseOk 404 = false ∧
    request ⟨404, "x", some (.obj [("message", .str "nope")])⟩
      = .error (jsToString (.str "nope")) :=
  ⟨rfl, (request_error_behavior
      ⟨404, "x", some (.obj [("message", .str "nope")])⟩).2.1
      (.str "nope") rfl rfl rfl⟩

section NullishLemmas

theorem nullish_of_some_not_null (v : Json) (b : Option Json)
    (h : isNullish (some v) = false) : nullish (some v) b = some v := by
  cases v <;> simp_all [isNullish, nullish]

theorem nullish_of_isNullish (a b : Option Json)
    (h : isNullish a = true) : nullish a b = b := by
  rcases a with _ | v
  · rfl
  · cases v <;> simp_all [isNullish, nullish]

end NullishLemmas

/-- C10: whenever question_number is falsy (absent, null, 0, the empty
string, or false), getQuestionId ignores it and returns the `id` field
when non-nullish, else the `questionId` field when non-nullish, else the
positional fallback "q-" followed by the index; in particular a
server-sent question_number of 0 on a record with no explicit id fields
yields the positional fallback, never the template id "question-0". -/
theorem getQuestionId_falsy_question_number (question : Option Json) (i : Nat)
    (h : truthyOpt (optChain question "question_number") = false) :
    (∀ v, optChain question "id" = some v → isNullish (some v) = false →
        getQuestionId question i = v) ∧
    (isNullish (optChain question "id") = true →
      ∀ v, optChain question "questionId" = some v →
        isNullish (some v) = false → getQuestionId question i = v) ∧
    (isNullish (optChain question "id") = true →
      isNullish (optChain question "questionId") = true →
      getQuestionId question i = .str ("q-" ++ toString i)) ∧
    (∀ j : Nat, getQuestionId (some (.obj [("question_number", .num 0)])) j
        = .str ("q-" ++ toString j)) ∧
    (∀ j : Nat, getQuestionId (some (.obj [("question_number", .num 0)])) j
        ≠ .str "question-0") := by
  refine ⟨?_, ?_, ?_, fun j => rfl, ?_⟩
  · intro v hv hnn
    unfold getQuestionId
    rw [if_neg (by simp [h]), hv, nullish_of_some_not_null v _ hnn]
  · intro hid v hv hnn
    unfold getQuestionId
    rw [if_neg (by simp [h]), nullish_of_isNullish _ _ hid, hv,
      nullish_of_some_not_null v _ hnn]
  · intro hid hqid
    unfold getQuestionId
    rw [if_neg (by simp [h]), nullish_of_isNullish _ _ hid,
      nullish_of_isNullish _ _ hqid]
  · intro j heq
    rw [show getQuestionId (some (.obj [("question_number", .num 0)])) j
        = .str ("q-" ++ toString j) from rfl] at heq
    have hs : "q-" ++ toString j = "question-0" := Json.str.inj heq
    have hd := congrArg String.data hs
    rw [String.data_append] at hd
    rw [show ("q-" : String).data = ['q', '-'] from rfl] at hd
    rw [show ("question-0" : String).data =
        ['q', 'u', 'e', 's', 't', 'i', 'o', 'n', '-', '0'] from rfl] at hd
    simp at hd

/-- C10 (witness): a record with question_number 0 and an explicit id
field resolves to the id field. -/
theorem getQuestionId_falsy_question_number_witness :
    truthyOpt (optChain (some (.obj [("question_number", .num 0),
        ("id", .str "abc")])) "question_number") = false ∧
    getQuestionId (some (.obj [("question_number", .num 0),
        ("id", .str "abc")])) 3 = .str "abc" :=
  ⟨rfl, (getQuestionId_falsy_question_number
      (some (.obj [("question_number", .num 0), ("id", .str "abc")])) 3
      rfl).1 (.str "abc") rfl rfl⟩

end ToeflPrep
